import Mathlib

/-!
Verification of the wasting rate-derivation engine of `vivarium_compass_sam`.

The Python source operates element-wise over stratified pandas tables; every
quantity here is embedded per stratum.  Ages and years in the stratification
index are rationals (so index comparisons are decidable); epidemiological
values are real numbers.  Definitions mirror
`src/vivarium_compass_sam/components/wasting.py`,
`src/vivarium_compass_sam/components/treatment.py`,
`src/vivarium_compass_sam/data/loader.py`,
`src/vivarium_ciff_sam/components/treatment.py` and
`src/vivarium_compass_sam/constants/data_values.py`.
-/

/-- `data_values.YEAR_DURATION`. -/
noncomputable def YEAR_DURATION : ℝ := 365.25

/-- `data_values.WASTING.START_AGE` (years); index values are rationals. -/
def START_AGE : ℚ := 1/2

/-- `data_values.WASTING.COVERAGE_START_AGE = 28 / 365.25` (years). -/
def COVERAGE_START_AGE : ℚ := 28 / (365.25 : ℚ)

/-- `data_values.WASTING.MILD_WASTING_UX_RECOVERY_TIME` (days). -/
noncomputable def MILD_WASTING_UX_RECOVERY_TIME : ℝ := 1000.0

/-- `data_values.WASTING.MAM_UX_RECOVERY_TIME` (days). -/
noncomputable def MAM_UX_RECOVERY_TIME : ℝ := 63.0

/-- `data_values.WASTING.SAM_TX_RECOVERY_TIME_OVER_6MO` (days). -/
noncomputable def SAM_TX_RECOVERY_TIME_OVER_6MO : ℝ := 48.3

/-- `data_values.WASTING.SAM_TX_RECOVERY_TIME_UNDER_6MO` (days). -/
noncomputable def SAM_TX_RECOVERY_TIME_UNDER_6MO : ℝ := 13.3

/-- `data_values.WASTING.MAM_TX_RECOVERY_TIME_OVER_6MO` (days). -/
noncomputable def MAM_TX_RECOVERY_TIME_OVER_6MO : ℝ := 41.3

/-- `data_values.WASTING.MAM_TX_RECOVERY_TIME_UNDER_6MO` (days). -/
noncomputable def MAM_TX_RECOVERY_TIME_UNDER_6MO : ℝ := 13.3

/-- `data_values.EARLY_NEONATAL_CAUSE_DURATION` (days). -/
noncomputable def EARLY_NEONATAL_CAUSE_DURATION : ℝ := 3.5

/-- A cell of the artifact stratification index
(`metadata.ARTIFACT_INDEX_COLUMNS = [sex, age_start, age_end, year_start, year_end]`). -/
structure Stratum where
  sex : Bool
  age_start : ℚ
  age_end : ℚ
  year_start : ℚ
  year_end : ℚ
deriving DecidableEq

/-- The four wasting exposure categories (`cat1` = SAM … `cat4` = TMREL). -/
inductive WastingCategory
  | cat1
  | cat2
  | cat3
  | cat4
deriving DecidableEq

/-- `wasting.py::_convert_annual_rate_to_daily_probability`:
`1 - exp(-rate / 365.25)`, element-wise. -/
noncomputable def convert_annual_rate_to_daily_probability (rate : ℝ) : ℝ :=
  1 - Real.exp (-rate / YEAR_DURATION)

/-- `wasting.py::_convert_daily_probability_to_annual_rate`:
`-log(1 - p) * 365.25`, element-wise. -/
noncomputable def convert_daily_probability_to_annual_rate (probability : ℝ) : ℝ :=
  -Real.log (1 - probability) * YEAR_DURATION

/-- `wasting.py::_reset_underage_transitions`: zero the rate in every stratum
with `age_end ≤ START_AGE`; leave other strata untouched. -/
noncomputable def reset_underage_transitions (s : Stratum) (transition_rate : ℝ) : ℝ :=
  if s.age_end ≤ START_AGE then 0 else transition_rate

/-- `wasting.py::adjust_exposure`: `exposures / (1 + adjustment)`, row-wise. -/
noncomputable def adjust_exposure (exposures : WastingCategory → ℝ) (adjustment : ℝ) :
    WastingCategory → ℝ :=
  fun c => exposures c / (1 + adjustment)

/-- The age-gated recovery-time selection inside
`wasting.py::get_daily_sam_treated_remission_probability`. -/
noncomputable def sam_tx_recovery_time (s : Stratum) : ℝ :=
  if s.age_start < START_AGE then SAM_TX_RECOVERY_TIME_UNDER_6MO
  else SAM_TX_RECOVERY_TIME_OVER_6MO

/-- The expression assigned to `t1` in
`wasting.py::get_daily_sam_treated_remission_probability`, before the
underage mask is applied. -/
noncomputable def sam_treated_remission_body (s : Stratum)
    (tx_coverage sam_tx_efficacy : ℝ) : ℝ :=
  convert_annual_rate_to_daily_probability
    (tx_coverage * sam_tx_efficacy * YEAR_DURATION / sam_tx_recovery_time s)

/-- `wasting.py::get_daily_sam_treated_remission_probability` (per stratum). -/
noncomputable def get_daily_sam_treated_remission_probability (s : Stratum)
    (tx_coverage sam_tx_efficacy : ℝ) : ℝ :=
  reset_underage_transitions s (sam_treated_remission_body s tx_coverage sam_tx_efficacy)

/-- The constant assigned to `r1` in
`wasting.py::get_mild_wasting_remission_probability`, before the underage
mask: `1 / MILD_WASTING_UX_RECOVERY_TIME`. -/
noncomputable def mild_wasting_remission_body : ℝ := 1 / MILD_WASTING_UX_RECOVERY_TIME

/-- `wasting.py::get_mild_wasting_remission_probability` (per stratum). -/
noncomputable def get_mild_wasting_remission_probability (s : Stratum) : ℝ :=
  reset_underage_transitions s mild_wasting_remission_body

/-- The expression assigned to `i3` in
`wasting.py::get_daily_mild_incidence_probability`, before the underage mask:
`adj*f4/ap4 + ap3*r4/ap4 - d4`. -/
noncomputable def mild_incidence_body (s : Stratum) (exposures : WastingCategory → ℝ)
    (adjustment : ℝ) (mortality_probs : WastingCategory → ℝ) : ℝ :=
  let adj_exposures := adjust_exposure exposures adjustment
  let mild_remission_prob := get_mild_wasting_remission_probability s
  adjustment * exposures .cat4 / adj_exposures .cat4
    + adj_exposures .cat3 * mild_remission_prob / adj_exposures .cat4
    - mortality_probs .cat4

/-- `wasting.py::get_daily_mild_incidence_probability` (per stratum). -/
noncomputable def get_daily_mild_incidence_probability (s : Stratum)
    (exposures : WastingCategory → ℝ) (adjustment : ℝ)
    (mortality_probs : WastingCategory → ℝ) : ℝ :=
  reset_underage_transitions s (mild_incidence_body s exposures adjustment mortality_probs)

/-- The age-gated recovery-time selection inside
`wasting.py::get_daily_mam_remission_probability`. -/
noncomputable def mam_tx_recovery_time (s : Stratum) : ℝ :=
  if s.age_start < START_AGE then MAM_TX_RECOVERY_TIME_UNDER_6MO
  else MAM_TX_RECOVERY_TIME_OVER_6MO

/-- The expression assigned to `r3` in
`wasting.py::get_daily_mam_remission_probability`, before the underage mask. -/
noncomputable def mam_remission_body (s : Stratum) (tx_coverage mam_tx_efficacy : ℝ) : ℝ :=
  let mam_tx_eff_coverage := tx_coverage * mam_tx_efficacy
  convert_annual_rate_to_daily_probability
    (mam_tx_eff_coverage * YEAR_DURATION / mam_tx_recovery_time s
      + (1 - mam_tx_eff_coverage) * YEAR_DURATION / MAM_UX_RECOVERY_TIME)

/-- `wasting.py::get_daily_mam_remission_probability` (per stratum). -/
noncomputable def get_daily_mam_remission_probability (s : Stratum)
    (tx_coverage mam_tx_efficacy : ℝ) : ℝ :=
  reset_underage_transitions s (mam_remission_body s tx_coverage mam_tx_efficacy)

/-- The expression assigned to `i2` in
`wasting.py::get_daily_mam_incidence_probability`, before the underage mask:
`adj*f3/ap3 + adj*f4/ap3 + ap1*t1/ap3 + ap2*r3/ap3 - d3 - ap4*d4/ap3`. -/
noncomputable def mam_incidence_body (s : Stratum) (exposures : WastingCategory → ℝ)
    (adjustment : ℝ) (mortality_probs : WastingCategory → ℝ)
    (tx_coverage mam_tx_efficacy sam_tx_efficacy : ℝ) : ℝ :=
  let adj_exposures := adjust_exposure exposures adjustment
  let treated_sam_remission_prob :=
    get_daily_sam_treated_remission_probability s tx_coverage sam_tx_efficacy
  let mam_remission_prob := get_daily_mam_remission_probability s tx_coverage mam_tx_efficacy
  adjustment * exposures .cat3 / adj_exposures .cat3
    + adjustment * exposures .cat4 / adj_exposures .cat3
    + adj_exposures .cat1 * treated_sam_remission_prob / adj_exposures .cat3
    + adj_exposures .cat2 * mam_remission_prob / adj_exposures .cat3
    - mortality_probs .cat3
    - adj_exposures .cat4 * mortality_probs .cat4 / adj_exposures .cat3

/-- `wasting.py::get_daily_mam_incidence_probability` (per stratum). -/
noncomputable def get_daily_mam_incidence_probability (s : Stratum)
    (exposures : WastingCategory → ℝ) (adjustment : ℝ)
    (mortality_probs : WastingCategory → ℝ)
    (tx_coverage mam_tx_efficacy sam_tx_efficacy : ℝ) : ℝ :=
  reset_underage_transitions s
    (mam_incidence_body s exposures adjustment mortality_probs
      tx_coverage mam_tx_efficacy sam_tx_efficacy)

/-- The expression assigned to `r2` in
`wasting.py::get_daily_sam_untreated_remission_probability`, before the
underage mask: the daily conversion of `sam_k - t1_annual - d1_annual`. -/
noncomputable def sam_untreated_remission_body (s : Stratum)
    (mortality_probs : WastingCategory → ℝ) (tx_coverage sam_tx_efficacy sam_k : ℝ) : ℝ :=
  let treated_sam_remission_prob :=
    get_daily_sam_treated_remission_probability s tx_coverage sam_tx_efficacy
  let treated_sam_remission_rate :=
    convert_daily_probability_to_annual_rate treated_sam_remission_prob
  let sam_mortality_rate :=
    convert_daily_probability_to_annual_rate (mortality_probs .cat1)
  convert_annual_rate_to_daily_probability
    (sam_k - treated_sam_remission_rate - sam_mortality_rate)

/-- `wasting.py::get_daily_sam_untreated_remission_probability` (per stratum). -/
noncomputable def get_daily_sam_untreated_remission_probability (s : Stratum)
    (mortality_probs : WastingCategory → ℝ) (tx_coverage sam_tx_efficacy sam_k : ℝ) : ℝ :=
  reset_underage_transitions s
    (sam_untreated_remission_body s mortality_probs tx_coverage sam_tx_efficacy sam_k)

/-- The expression assigned to `i1` in
`wasting.py::get_daily_sam_incidence_probability`, before the underage mask:
`adj*f2/ap2 + adj*f3/ap2 + adj*f4/ap2 + ap1*r2/ap2 + ap1*t1/ap2 - d2
 - ap3*d3/ap2 - ap4*d4/ap2`. -/
noncomputable def sam_incidence_body (s : Stratum) (exposures : WastingCategory → ℝ)
    (adjustment : ℝ) (mortality_probs : WastingCategory → ℝ)
    (tx_coverage sam_tx_efficacy sam_k : ℝ) : ℝ :=
  let adj_exposures := adjust_exposure exposures adjustment
  let treated_sam_remission_prob :=
    get_daily_sam_treated_remission_probability s tx_coverage sam_tx_efficacy
  let untreated_sam_remission_prob :=
    get_daily_sam_untreated_remission_probability s mortality_probs
      tx_coverage sam_tx_efficacy sam_k
  adjustment * exposures .cat2 / adj_exposures .cat2
    + adjustment * exposures .cat3 / adj_exposures .cat2
    + adjustment * exposures .cat4 / adj_exposures .cat2
    + adj_exposures .cat1 * untreated_sam_remission_prob / adj_exposures .cat2
    + adj_exposures .cat1 * treated_sam_remission_prob / adj_exposures .cat2
    - mortality_probs .cat2
    - adj_exposures .cat3 * mortality_probs .cat3 / adj_exposures .cat2
    - adj_exposures .cat4 * mortality_probs .cat4 / adj_exposures .cat2

/-- `wasting.py::get_daily_sam_incidence_probability` (per stratum). -/
noncomputable def get_daily_sam_incidence_probability (s : Stratum)
    (exposures : WastingCategory → ℝ) (adjustment : ℝ)
    (mortality_probs : WastingCategory → ℝ)
    (tx_coverage sam_tx_efficacy sam_k : ℝ) : ℝ :=
  reset_underage_transitions s
    (sam_incidence_body s exposures adjustment mortality_probs
      tx_coverage sam_tx_efficacy sam_k)


/-- The comorbid causes iterated by
`wasting.py::load_daily_mortality_probabilities`. -/
inductive WastingCause
  | diarrhea
  | measles
  | lri
  | pem
deriving DecidableEq

/-- The list `causes` in `wasting.py::load_daily_mortality_probabilities`. -/
def mortality_causes : List WastingCause :=
  [.diarrhea, .measles, .lri, .pem]

/-- Mean duration in days of each non-PEM comorbidity
(`data_values.DIARRHEA_DURATION`, `MEASLES_DURATION`, `LRI_DURATION`). -/
noncomputable def cause_duration_days : WastingCause → ℝ
  | .diarrhea => 10
  | .measles => 10
  | .lri => 10
  | .pem => 0

/-- `duration_c` in `wasting.py::load_daily_mortality_probabilities`:
the fixed per-cause duration, replaced by `EARLY_NEONATAL_CAUSE_DURATION`
in the earliest age bin, converted to years. -/
noncomputable def duration_c (s : Stratum) (c : WastingCause) : ℝ :=
  (if s.age_start = 0 then EARLY_NEONATAL_CAUSE_DURATION else cause_duration_days c)
    / YEAR_DURATION

/-- `prevalence_pem_i` in `wasting.py::load_daily_mortality_probabilities`:
the fixed PEM prevalence prior `[1, 1, 0, 0]` over `cat1..cat4`. -/
noncomputable def prevalence_pem_i : WastingCategory → ℝ
  | .cat1 => 1
  | .cat2 => 1
  | .cat3 => 0
  | .cat4 => 0

/-- `prevalence_ci` in `wasting.py::load_daily_mortality_probabilities`:
`incidence_ci * duration_c` with `incidence_ci = rr_ci * incidence_c * (1 - paf_c)`
for the non-PEM causes, and the fixed prior for PEM. -/
noncomputable def prevalence_ci (s : Stratum) (i : WastingCategory)
    (incidence_c paf_c : WastingCause → ℝ)
    (rr_ci : WastingCause → WastingCategory → ℝ) : WastingCause → ℝ
  | .pem => prevalence_pem_i i
  | c => rr_ci c i * incidence_c c * (1 - paf_c c) * duration_c s c

/-- `mr_i` in `wasting.py::load_daily_mortality_probabilities`:
`acmr + sum_c(prevalence_ci * emr_c - csmr_c)`. -/
noncomputable def mortality_rate_i (s : Stratum) (i : WastingCategory) (acmr : ℝ)
    (emr_c csmr_c incidence_c paf_c : WastingCause → ℝ)
    (rr_ci : WastingCause → WastingCategory → ℝ) : ℝ :=
  acmr + (mortality_causes.map
    (fun c => prevalence_ci s i incidence_c paf_c rr_ci c * emr_c c - csmr_c c)).sum

/-- `wasting.py::load_daily_mortality_probabilities` (per stratum and wasting
category): the composed annual mortality rate converted to a daily
probability. -/
noncomputable def load_daily_mortality_probabilities (s : Stratum) (i : WastingCategory)
    (acmr : ℝ) (emr_c csmr_c incidence_c paf_c : WastingCause → ℝ)
    (rr_ci : WastingCause → WastingCategory → ℝ) : ℝ :=
  convert_annual_rate_to_daily_probability
    (mortality_rate_i s i acmr emr_c csmr_c incidence_c paf_c rr_ci)

/-- The per-individual treatment coverage categories assigned by
`vivarium_ciff_sam/components/treatment.py::WastingTreatment._treatment_coverage_source`. -/
inductive TreatmentCoverageCategory
  | ineligible
  | untreated
  | non_responsive
  | effectively_covered
deriving DecidableEq

/-- The boolean mask `ineligible = age < COVERAGE_START_AGE`. -/
def mask_ineligible (age : ℚ) : Bool :=
  age < COVERAGE_START_AGE

/-- The boolean mask `untreated = ~ineligible & (coverage_level <= propensity)`. -/
def mask_untreated (treatment_coverage_level age treatment_propensity : ℚ) : Bool :=
  !mask_ineligible age && (treatment_coverage_level ≤ treatment_propensity)

/-- The boolean mask
`non_responsive = ~ineligible & ~untreated & (efficacy_level <= efficacy_propensity)`. -/
def mask_non_responsive (treatment_coverage_level treatment_efficacy_level
    age treatment_propensity efficacy_propensity : ℚ) : Bool :=
  !mask_ineligible age && !mask_untreated treatment_coverage_level age treatment_propensity
    && (treatment_efficacy_level ≤ efficacy_propensity)

/-- The boolean mask
`effectively_covered = ~ineligible & ~untreated & (efficacy_propensity < efficacy_level)`. -/
def mask_effectively_covered (treatment_coverage_level treatment_efficacy_level
    age treatment_propensity efficacy_propensity : ℚ) : Bool :=
  !mask_ineligible age && !mask_untreated treatment_coverage_level age treatment_propensity
    && (efficacy_propensity < treatment_efficacy_level)

/-- `WastingTreatment._treatment_coverage_source` (per individual): the series
starts unset (`none`) and is overwritten by the four masks in program order;
a row matched by a later mask ends in that later category. -/
def treatment_coverage_source (treatment_coverage_level treatment_efficacy_level
    age treatment_propensity efficacy_propensity : ℚ) : Option TreatmentCoverageCategory :=
  let c0 : Option TreatmentCoverageCategory := none
  let c1 := if mask_ineligible age then some .ineligible else c0
  let c2 := if mask_untreated treatment_coverage_level age treatment_propensity
    then some .untreated else c1
  let c3 := if mask_non_responsive treatment_coverage_level treatment_efficacy_level
      age treatment_propensity efficacy_propensity
    then some .non_responsive else c2
  let c4 := if mask_effectively_covered treatment_coverage_level treatment_efficacy_level
      age treatment_propensity efficacy_propensity
    then some .effectively_covered else c3
  c4

/-- An IEEE-754-style value as produced by numpy/pandas float arithmetic:
a finite value (modelled as a rational), a signed infinity, or NaN.
Used to model the division-degeneracy behaviour of the source, which
real-number arithmetic cannot express. -/
inductive PandasVal
  | nan
  | pinf
  | ninf
  | fin (q : ℚ)
deriving DecidableEq

/-- IEEE-style negation. -/
def pvNeg : PandasVal → PandasVal
  | .nan => .nan
  | .pinf => .ninf
  | .ninf => .pinf
  | .fin q => .fin (-q)

/-- IEEE-style addition: NaN absorbs, opposite infinities give NaN. -/
def pvAdd : PandasVal → PandasVal → PandasVal
  | .nan, _ => .nan
  | _, .nan => .nan
  | .pinf, .ninf => .nan
  | .ninf, .pinf => .nan
  | .pinf, _ => .pinf
  | _, .pinf => .pinf
  | .ninf, _ => .ninf
  | _, .ninf => .ninf
  | .fin a, .fin b => .fin (a + b)

/-- IEEE-style subtraction. -/
def pvSub (a b : PandasVal) : PandasVal := pvAdd a (pvNeg b)

/-- IEEE-style multiplication: NaN absorbs, `0 * inf = NaN`. -/
def pvMul : PandasVal → PandasVal → PandasVal
  | .nan, _ => .nan
  | _, .nan => .nan
  | .pinf, .pinf => .pinf
  | .pinf, .ninf => .ninf
  | .ninf, .pinf => .ninf
  | .ninf, .ninf => .pinf
  | .pinf, .fin b => if b = 0 then .nan else if 0 < b then .pinf else .ninf
  | .fin a, .pinf => if a = 0 then .nan else if 0 < a then .pinf else .ninf
  | .ninf, .fin b => if b = 0 then .nan else if 0 < b then .ninf else .pinf
  | .fin a, .ninf => if a = 0 then .nan else if 0 < a then .ninf else .pinf
  | .fin a, .fin b => .fin (a * b)

/-- IEEE-style division as performed by numpy on float Series:
`0/0 = NaN`, `x/0 = ±inf` for `x ≠ 0`, `x/inf = 0`, `inf/inf = NaN`. -/
def pvDiv : PandasVal → PandasVal → PandasVal
  | .nan, _ => .nan
  | _, .nan => .nan
  | .pinf, .pinf => .nan
  | .pinf, .ninf => .nan
  | .ninf, .pinf => .nan
  | .ninf, .ninf => .nan
  | .pinf, .fin b => if 0 ≤ b then .pinf else .ninf
  | .ninf, .fin b => if 0 ≤ b then .ninf else .pinf
  | .fin _, .pinf => .fin 0
  | .fin _, .ninf => .fin 0
  | .fin a, .fin b =>
    if b = 0 then (if a = 0 then .nan else if 0 < a then .pinf else .ninf)
    else .fin (a / b)

/-- pandas `.fillna(0)` on a single cell. -/
def fillna_zero : PandasVal → PandasVal
  | .nan => .fin 0
  | v => v

/-- pandas `.replace([np.inf, -np.inf], 0)` on a single cell. -/
def replace_inf_zero : PandasVal → PandasVal
  | .pinf => .fin 0
  | .ninf => .fin 0
  | v => v

/-- `data/loader.py::load_lri_excess_mortality_rate` (per stratum):
`(csmr / prevalence).fillna(0)` followed by `.replace([np.inf, -np.inf], 0)`. -/
def load_lri_excess_mortality_rate (csmr prevalence : PandasVal) : PandasVal :=
  replace_inf_zero (fillna_zero (pvDiv csmr prevalence))

/-- `wasting.py::get_daily_sam_incidence_probability` under float semantics:
the same `i1` expression as `sam_incidence_body`, with the already-computed
remission and mortality probabilities passed in, evaluated with numpy/pandas
division rules.  The source applies no NaN/infinity recovery here. -/
def sam_incidence_probability_fp (adjustment : PandasVal)
    (exposures : WastingCategory → PandasVal)
    (treated_sam_remission_prob untreated_sam_remission_prob : PandasVal)
    (mortality_probs : WastingCategory → PandasVal) : PandasVal :=
  let one_plus_adj := pvAdd (.fin 1) adjustment
  let ap := fun c => pvDiv (exposures c) one_plus_adj
  pvSub (pvSub (pvSub
    (pvAdd (pvAdd (pvAdd (pvAdd
      (pvDiv (pvMul adjustment (exposures .cat2)) (ap .cat2))
      (pvDiv (pvMul adjustment (exposures .cat3)) (ap .cat2)))
      (pvDiv (pvMul adjustment (exposures .cat4)) (ap .cat2)))
      (pvDiv (pvMul (ap .cat1) untreated_sam_remission_prob) (ap .cat2)))
      (pvDiv (pvMul (ap .cat1) treated_sam_remission_prob) (ap .cat2)))
    (mortality_probs .cat2))
    (pvDiv (pvMul (ap .cat3) (mortality_probs .cat3)) (ap .cat2)))
    (pvDiv (pvMul (ap .cat4) (mortality_probs .cat4)) (ap .cat2))

/-- The stratification index with the age levels dropped, as produced by
`droplevel(['age_start', 'age_end'])`. -/
structure StratumNoAge where
  sex : Bool
  year_start : ℚ
  year_end : ℚ
deriving DecidableEq

/-- `droplevel(['age_start', 'age_end'])` on a stratum. -/
def droplevel_age (s : Stratum) : StratumNoAge :=
  ⟨s.sex, s.year_start, s.year_end⟩

/-- `wasting.py::load_child_wasting_birth_prevalence` (vivarium_compass_sam):
select the category's exposure column, keep the rows with
`age_end == START_AGE`, and drop the age levels. -/
def load_child_wasting_birth_prevalence
    (exposures : List (Stratum × (WastingCategory → ℚ)))
    (wasting_category : WastingCategory) : List (StratumNoAge × ℚ) :=
  let exposure := exposures.map (fun r => (r.1, r.2 wasting_category))
  (exposure.filter (fun r => decide (r.1.age_end = START_AGE))).map
    (fun r => (droplevel_age r.1, r.2))

/-- The spec's description of the same callback, for comparison with
`load_child_wasting_birth_prevalence`: it reads the category's exposure in
the stratum row whose age bin STARTS at the model's start age. -/
def birth_prevalence_per_spec
    (exposures : List (Stratum × (WastingCategory → ℚ)))
    (wasting_category : WastingCategory) : List (StratumNoAge × ℚ) :=
  let exposure := exposures.map (fun r => (r.1, r.2 wasting_category))
  (exposure.filter (fun r => decide (r.1.age_start = START_AGE))).map
    (fun r => (droplevel_age r.1, r.2))

/-- `treatment.py::SQLNSTreatment.apply_stunting_treatment` (per row):
move `cat1 * (1 - severe_rr)` and `cat2 * (1 - moderate_rr)` into `cat3`
for covered rows; leave non-covered rows and `cat4` unchanged. -/
noncomputable def apply_stunting_treatment
    (severe_stunting_risk_ratio moderate_stunting_risk_ratio : ℝ)
    (covered : Bool) (target : WastingCategory → ℝ) : WastingCategory → ℝ :=
  let cat1_decrease := target .cat1 * (1 - severe_stunting_risk_ratio)
  let cat2_decrease := target .cat2 * (1 - moderate_stunting_risk_ratio)
  fun c =>
    if covered then
      match c with
      | .cat1 => target .cat1 - cat1_decrease
      | .cat2 => target .cat2 - cat2_decrease
      | .cat3 => target .cat3 + cat1_decrease + cat2_decrease
      | .cat4 => target .cat4
    else target c

/-- C1: each of the seven wasting transition-rate solvers (mild incidence i3,
mild remission r4, MAM incidence i2, MAM remission r3, SAM incidence i1, SAM
untreated remission r2, SAM treated remission t1) returns exactly 0 in every
stratum with `age_end ≤ START_AGE = 0.5`, and the unmodified formula value in
every stratum with `age_end > START_AGE`. -/
theorem C1_age_gating (s : Stratum) (exposures mortality_probs : WastingCategory → ℝ)
    (adjustment tx_coverage mam_tx_efficacy sam_tx_efficacy sam_k : ℝ) :
    (s.age_end ≤ START_AGE →
      get_daily_mild_incidence_probability s exposures adjustment mortality_probs = 0 ∧
      get_mild_wasting_remission_probability s = 0 ∧
      get_daily_mam_incidence_probability s exposures adjustment mortality_probs
        tx_coverage mam_tx_efficacy sam_tx_efficacy = 0 ∧
      get_daily_mam_remission_probability s tx_coverage mam_tx_efficacy = 0 ∧
      get_daily_sam_incidence_probability s exposures adjustment mortality_probs
        tx_coverage sam_tx_efficacy sam_k = 0 ∧
      get_daily_sam_untreated_remission_probability s mortality_probs
        tx_coverage sam_tx_efficacy sam_k = 0 ∧
      get_daily_sam_treated_remission_probability s tx_coverage sam_tx_efficacy = 0) ∧
    (START_AGE < s.age_end →
      get_daily_mild_incidence_probability s exposures adjustment mortality_probs
        = mild_incidence_body s exposures adjustment mortality_probs ∧
      get_mild_wasting_remission_probability s = mild_wasting_remission_body ∧
      get_daily_mam_incidence_probability s exposures adjustment mortality_probs
        tx_coverage mam_tx_efficacy sam_tx_efficacy
        = mam_incidence_body s exposures adjustment mortality_probs
            tx_coverage mam_tx_efficacy sam_tx_efficacy ∧
      get_daily_mam_remission_probability s tx_coverage mam_tx_efficacy
        = mam_remission_body s tx_coverage mam_tx_efficacy ∧
      get_daily_sam_incidence_probability s exposures adjustment mortality_probs
        tx_coverage sam_tx_efficacy sam_k
        = sam_incidence_body s exposures adjustment mortality_probs
            tx_coverage sam_tx_efficacy sam_k ∧
      get_daily_sam_untreated_remission_probability s mortality_probs
        tx_coverage sam_tx_efficacy sam_k
        = sam_untreated_remission_body s mortality_probs tx_coverage sam_tx_efficacy sam_k ∧
      get_daily_sam_treated_remission_probability s tx_coverage sam_tx_efficacy
        = sam_treated_remission_body s tx_coverage sam_tx_efficacy) := by
  constructor
  · intro h
    simp [get_daily_mild_incidence_probability, get_mild_wasting_remission_probability,
      get_daily_mam_incidence_probability, get_daily_mam_remission_probability,
      get_daily_sam_incidence_probability, get_daily_sam_untreated_remission_probability,
      get_daily_sam_treated_remission_probability, reset_underage_transitions, h]
  · intro h
    have h' : ¬ s.age_end ≤ START_AGE := not_le.mpr h
    simp [get_daily_mild_incidence_probability, get_mild_wasting_remission_probability,
      get_daily_mam_incidence_probability, get_daily_mam_remission_probability,
      get_daily_sam_incidence_probability, get_daily_sam_untreated_remission_probability,
      get_daily_sam_treated_remission_probability, reset_underage_transitions, h']

/-- Witness for C1 at two concrete strata: the bin `[0, 0.5)` is gated to 0
and the bin `[0.5, 1)` keeps the formula value. -/
theorem C1_age_gating_witness :
    (get_daily_mild_incidence_probability ⟨true, 0, 1/2, 2022, 2023⟩
        (fun _ => 1/10) (1/50) (fun _ => 1/100) = 0 ∧
      get_mild_wasting_remission_probability ⟨true, 0, 1/2, 2022, 2023⟩ = 0 ∧
      get_daily_mam_incidence_probability ⟨true, 0, 1/2, 2022, 2023⟩
        (fun _ => 1/10) (1/50) (fun _ => 1/100) (1/2) (1/2) (1/2) = 0 ∧
      get_daily_mam_remission_probability ⟨true, 0, 1/2, 2022, 2023⟩ (1/2) (1/2) = 0 ∧
      get_daily_sam_incidence_probability ⟨true, 0, 1/2, 2022, 2023⟩
        (fun _ => 1/10) (1/50) (fun _ => 1/100) (1/2) (1/2) 7 = 0 ∧
      get_daily_sam_untreated_remission_probability ⟨true, 0, 1/2, 2022, 2023⟩
        (fun _ => 1/100) (1/2) (1/2) 7 = 0 ∧
      get_daily_sam_treated_remission_probability ⟨true, 0, 1/2, 2022, 2023⟩ (1/2) (1/2) = 0) ∧
    (get_daily_mild_incidence_probability ⟨true, 1/2, 1, 2022, 2023⟩
        (fun _ => 1/10) (1/50) (fun _ => 1/100)
        = mild_incidence_body ⟨true, 1/2, 1, 2022, 2023⟩ (fun _ => 1/10) (1/50) (fun _ => 1/100) ∧
      get_mild_wasting_remission_probability ⟨true, 1/2, 1, 2022, 2023⟩
        = mild_wasting_remission_body ∧
      get_daily_mam_incidence_probability ⟨true, 1/2, 1, 2022, 2023⟩
        (fun _ => 1/10) (1/50) (fun _ => 1/100) (1/2) (1/2) (1/2)
        = mam_incidence_body ⟨true, 1/2, 1, 2022, 2023⟩
            (fun _ => 1/10) (1/50) (fun _ => 1/100) (1/2) (1/2) (1/2) ∧
      get_daily_mam_remission_probability ⟨true, 1/2, 1, 2022, 2023⟩ (1/2) (1/2)
        = mam_remission_body ⟨true, 1/2, 1, 2022, 2023⟩ (1/2) (1/2) ∧
      get_daily_sam_incidence_probability ⟨true, 1/2, 1, 2022, 2023⟩
        (fun _ => 1/10) (1/50) (fun _ => 1/100) (1/2) (1/2) 7
        = sam_incidence_body ⟨true, 1/2, 1, 2022, 2023⟩
            (fun _ => 1/10) (1/50) (fun _ => 1/100) (1/2) (1/2) 7 ∧
      get_daily_sam_untreated_remission_probability ⟨true, 1/2, 1, 2022, 2023⟩
        (fun _ => 1/100) (1/2) (1/2) 7
        = sam_untreated_remission_body ⟨true, 1/2, 1, 2022, 2023⟩
            (fun _ => 1/100) (1/2) (1/2) 7 ∧
      get_daily_sam_treated_remission_probability ⟨true, 1/2, 1, 2022, 2023⟩ (1/2) (1/2)
        = sam_treated_remission_body ⟨true, 1/2, 1, 2022, 2023⟩ (1/2) (1/2)) :=
  ⟨(C1_age_gating ⟨true, 0, 1/2, 2022, 2023⟩ (fun _ => 1/10) (fun _ => 1/100)
      (1/50) (1/2) (1/2) (1/2) 7).1 (by norm_num [START_AGE]),
    (C1_age_gating ⟨true, 1/2, 1, 2022, 2023⟩ (fun _ => 1/10) (fun _ => 1/100)
      (1/50) (1/2) (1/2) (1/2) 7).2 (by norm_num [START_AGE])⟩

/-- C10: `SQLNSTreatment.apply_stunting_treatment` preserves the per-row sum
`cat1 + cat2 + cat3 + cat4` for every input row, coverage flag and drawn risk
ratios. -/
theorem C10_stunting_sum_preserved (severe_stunting_risk_ratio moderate_stunting_risk_ratio : ℝ)
    (covered : Bool) (target : WastingCategory → ℝ) :
    apply_stunting_treatment severe_stunting_risk_ratio moderate_stunting_risk_ratio
        covered target .cat1
      + apply_stunting_treatment severe_stunting_risk_ratio moderate_stunting_risk_ratio
          covered target .cat2
      + apply_stunting_treatment severe_stunting_risk_ratio moderate_stunting_risk_ratio
          covered target .cat3
      + apply_stunting_treatment severe_stunting_risk_ratio moderate_stunting_risk_ratio
          covered target .cat4
      = target .cat1 + target .cat2 + target .cat3 + target .cat4 := by
  cases covered
  · rfl
  · show target WastingCategory.cat1
          - target WastingCategory.cat1 * (1 - severe_stunting_risk_ratio)
        + (target WastingCategory.cat2
          - target WastingCategory.cat2 * (1 - moderate_stunting_risk_ratio))
        + (target WastingCategory.cat3
          + target WastingCategory.cat1 * (1 - severe_stunting_risk_ratio)
          + target WastingCategory.cat2 * (1 - moderate_stunting_risk_ratio))
        + target WastingCategory.cat4
      = target WastingCategory.cat1 + target WastingCategory.cat2
        + target WastingCategory.cat3 + target WastingCategory.cat4
    ring

/-- C2: for any rate `ρ ≥ 0`, converting to a daily probability and back
recovers `ρ` exactly over the reals, and the intermediate daily probability
lies in `[0, 1)`. -/
theorem C2_round_trip (rate : ℝ) (h : 0 ≤ rate) :
    convert_daily_probability_to_annual_rate
        (convert_annual_rate_to_daily_probability rate) = rate ∧
    0 ≤ convert_annual_rate_to_daily_probability rate ∧
    convert_annual_rate_to_daily_probability rate < 1 := by
  have hY : (0 : ℝ) < YEAR_DURATION := by norm_num [YEAR_DURATION]
  refine ⟨?_, ?_, ?_⟩
  · unfold convert_daily_probability_to_annual_rate convert_annual_rate_to_daily_probability
    rw [sub_sub_cancel, Real.log_exp]
    field_simp
  · unfold convert_annual_rate_to_daily_probability
    have hx : -rate / YEAR_DURATION ≤ 0 :=
      div_nonpos_iff.mpr (Or.inr ⟨neg_nonpos.mpr h, hY.le⟩)
    have := Real.exp_le_one_iff.mpr hx
    linarith
  · unfold convert_annual_rate_to_daily_probability
    have := Real.exp_pos (-rate / YEAR_DURATION)
    linarith

/-- Witness for C2 at the concrete rate 0. -/
theorem C2_round_trip_witness :
    convert_daily_probability_to_annual_rate
        (convert_annual_rate_to_daily_probability 0) = 0 ∧
    0 ≤ convert_annual_rate_to_daily_probability 0 ∧
    convert_annual_rate_to_daily_probability 0 < 1 :=
  C2_round_trip 0 le_rfl

/-- C3 counterexample: with non-negative inputs (zero adjustment, zero cat3
exposure, cat4 exposure 1, cat4 daily mortality probability 1/2) in the
non-gated stratum `[0.5, 1)`, the mild incidence solver i3 returns `-1/2 < 0`:
the solvers do not clamp their outputs to be non-negative. -/
theorem C3_counterexample :
    get_daily_mild_incidence_probability ⟨true, 1/2, 1, 2022, 2023⟩
      (fun c => match c with | .cat4 => 1 | _ => 0) 0
      (fun c => match c with | .cat4 => 1/2 | _ => 0) < 0 := by
  norm_num [get_daily_mild_incidence_probability, reset_underage_transitions,
    mild_incidence_body, adjust_exposure, get_mild_wasting_remission_probability,
    mild_wasting_remission_body, MILD_WASTING_UX_RECOVERY_TIME, START_AGE]

/-- C3 amended: solver outputs are non-negative only under explicit side
conditions on the subtracted mortality terms — the mild incidence i3 is ≥ 0
whenever its inflow terms at least offset the cat4 mortality probability, and
the SAM untreated remission r2 is ≥ 0 whenever
`t1_annual + d1_annual ≤ sam_k`. -/
theorem C3_amended_nonneg (s : Stratum) (exposures mortality_probs : WastingCategory → ℝ)
    (adjustment tx_coverage sam_tx_efficacy sam_k : ℝ)
    (h3 : mortality_probs .cat4 ≤
      adjustment * exposures .cat4 / (exposures .cat4 / (1 + adjustment))
        + exposures .cat3 / (1 + adjustment) * get_mild_wasting_remission_probability s
            / (exposures .cat4 / (1 + adjustment)))
    (h2 : convert_daily_probability_to_annual_rate
        (get_daily_sam_treated_remission_probability s tx_coverage sam_tx_efficacy)
      + convert_daily_probability_to_annual_rate (mortality_probs .cat1) ≤ sam_k) :
    0 ≤ get_daily_mild_incidence_probability s exposures adjustment mortality_probs ∧
    0 ≤ get_daily_sam_untreated_remission_probability s mortality_probs
          tx_coverage sam_tx_efficacy sam_k := by
  have hY : (0 : ℝ) < YEAR_DURATION := by norm_num [YEAR_DURATION]
  constructor
  · unfold get_daily_mild_incidence_probability reset_underage_transitions
    split
    · exact le_rfl
    · unfold mild_incidence_body adjust_exposure
      simp only []
      linarith
  · unfold get_daily_sam_untreated_remission_probability reset_underage_transitions
    split
    · exact le_rfl
    · unfold sam_untreated_remission_body convert_annual_rate_to_daily_probability
      simp only []
      have hx : -(sam_k
          - convert_daily_probability_to_annual_rate
              (get_daily_sam_treated_remission_probability s tx_coverage sam_tx_efficacy)
          - convert_daily_probability_to_annual_rate (mortality_probs .cat1))
            / YEAR_DURATION ≤ 0 :=
        div_nonpos_iff.mpr (Or.inr ⟨by linarith, hY.le⟩)
      have := Real.exp_le_one_iff.mpr hx
      linarith

/-- Witness for the amended C3 at a concrete non-gated stratum where both
side conditions hold. -/
theorem C3_amended_nonneg_witness :
    0 ≤ get_daily_mild_incidence_probability ⟨true, 1/2, 1, 2022, 2023⟩
          (fun _ => 1) 0 (fun _ => 0) ∧
    0 ≤ get_daily_sam_untreated_remission_probability ⟨true, 1/2, 1, 2022, 2023⟩
          (fun _ => 0) 0 0 1 :=
  C3_amended_nonneg ⟨true, 1/2, 1, 2022, 2023⟩ (fun _ => 1) (fun _ => 0) 0 0 0 1
    (by norm_num [get_mild_wasting_remission_probability, reset_underage_transitions,
      mild_wasting_remission_body, MILD_WASTING_UX_RECOVERY_TIME, START_AGE])
    (by norm_num [get_daily_sam_treated_remission_probability, reset_underage_transitions,
      sam_treated_remission_body, convert_annual_rate_to_daily_probability,
      convert_daily_probability_to_annual_rate, sam_tx_recovery_time, START_AGE,
      Real.exp_zero, Real.log_one])

/-- C4: in every stratum with a non-empty age bin and `age_start ≥ 0.5`, the
SAM treated-remission solver returns exactly
`1 - exp(-(tx_coverage * sam_tx_efficacy * 365.25 / 48.3) / 365.25)`; in
strata with `age_start < 0.5` the formula uses the 13.3-day recovery time
instead. -/
theorem C4_sam_treated_remission_form (s : Stratum) (tx_coverage sam_tx_efficacy : ℝ)
    (hbin : s.age_start < s.age_end) :
    (START_AGE ≤ s.age_start →
      get_daily_sam_treated_remission_probability s tx_coverage sam_tx_efficacy
        = 1 - Real.exp (-(tx_coverage * sam_tx_efficacy * 365.25 / 48.3) / 365.25)) ∧
    (s.age_start < START_AGE →
      sam_treated_remission_body s tx_coverage sam_tx_efficacy
        = 1 - Real.exp (-(tx_coverage * sam_tx_efficacy * 365.25 / 13.3) / 365.25)) := by
  constructor
  · intro ha
    have h1 : ¬ s.age_end ≤ START_AGE := not_le.mpr (lt_of_le_of_lt ha hbin)
    have h2 : ¬ s.age_start < START_AGE := not_lt.mpr ha
    simp [get_daily_sam_treated_remission_probability, reset_underage_transitions,
      sam_treated_remission_body, convert_annual_rate_to_daily_probability,
      sam_tx_recovery_time, SAM_TX_RECOVERY_TIME_OVER_6MO, YEAR_DURATION, h1, h2]
  · intro ha
    simp [sam_treated_remission_body, convert_annual_rate_to_daily_probability,
      sam_tx_recovery_time, SAM_TX_RECOVERY_TIME_UNDER_6MO, YEAR_DURATION, ha]

/-- Witness for C4: the claim's concrete scenario (age_start = 1.0,
coverage 0.488, efficacy 0.700 ⇒ the 48.3-day closed form) and an under-6-month
stratum using 13.3 days. -/
theorem C4_sam_treated_remission_form_witness :
    get_daily_sam_treated_remission_probability ⟨true, 1, 2, 2022, 2023⟩ 0.488 0.700
      = 1 - Real.exp (-(0.488 * 0.700 * 365.25 / 48.3) / 365.25) ∧
    sam_treated_remission_body ⟨true, 0, 1/2, 2022, 2023⟩ 0.488 0.700
      = 1 - Real.exp (-(0.488 * 0.700 * 365.25 / 13.3) / 365.25) :=
  ⟨(C4_sam_treated_remission_form ⟨true, 1, 2, 2022, 2023⟩ 0.488 0.700
      (by norm_num)).1 (by norm_num [START_AGE]),
    (C4_sam_treated_remission_form ⟨true, 0, 1/2, 2022, 2023⟩ 0.488 0.700
      (by norm_num)).2 (by norm_num [START_AGE])⟩

/-- C5: if every comorbidity's EMR, CSMR and incidence are identically 0 and
the PEM prevalence prior is 0 for the category, the mortality composer's
output equals the ACMR-derived daily probability exactly. -/
theorem C5_mortality_composer_zero_case (s : Stratum) (i : WastingCategory) (acmr : ℝ)
    (emr_c csmr_c incidence_c paf_c : WastingCause → ℝ)
    (rr_ci : WastingCause → WastingCategory → ℝ)
    (hemr : ∀ c, emr_c c = 0) (hcsmr : ∀ c, csmr_c c = 0)
    (hinc : ∀ c, incidence_c c = 0) (hpem : prevalence_pem_i i = 0) :
    load_daily_mortality_probabilities s i acmr emr_c csmr_c incidence_c paf_c rr_ci
      = convert_annual_rate_to_daily_probability acmr := by
  unfold load_daily_mortality_probabilities mortality_rate_i mortality_causes
  simp [hemr, hcsmr]

/-- Witness for C5 with all-zero comorbidity tables, category cat3
(PEM prior 0) and ACMR 2. -/
theorem C5_mortality_composer_zero_case_witness :
    load_daily_mortality_probabilities ⟨true, 1/2, 1, 2022, 2023⟩ .cat3 2
        (fun _ => 0) (fun _ => 0) (fun _ => 0) (fun _ => 0) (fun _ _ => 0)
      = convert_annual_rate_to_daily_probability 2 :=
  C5_mortality_composer_zero_case ⟨true, 1/2, 1, 2022, 2023⟩ .cat3 2
    (fun _ => 0) (fun _ => 0) (fun _ => 0) (fun _ => 0) (fun _ _ => 0)
    (fun _ => rfl) (fun _ => rfl) (fun _ => rfl) rfl

/-- C6: the per-individual treatment coverage classifier always assigns
exactly one category, following the ordered decision list of the source
masks, with boundary ties (`≤`) resolving to the earlier-listed category. -/
theorem C6_coverage_classification (treatment_coverage_level treatment_efficacy_level
    age treatment_propensity efficacy_propensity : ℚ) :
    treatment_coverage_source treatment_coverage_level treatment_efficacy_level
        age treatment_propensity efficacy_propensity ≠ none ∧
    (treatment_coverage_source treatment_coverage_level treatment_efficacy_level
        age treatment_propensity efficacy_propensity = some .ineligible ↔
      age < COVERAGE_START_AGE) ∧
    (treatment_coverage_source treatment_coverage_level treatment_efficacy_level
        age treatment_propensity efficacy_propensity = some .untreated ↔
      ¬(age < COVERAGE_START_AGE) ∧ treatment_coverage_level ≤ treatment_propensity) ∧
    (treatment_coverage_source treatment_coverage_level treatment_efficacy_level
        age treatment_propensity efficacy_propensity = some .non_responsive ↔
      ¬(age < COVERAGE_START_AGE) ∧ ¬(treatment_coverage_level ≤ treatment_propensity) ∧
        treatment_efficacy_level ≤ efficacy_propensity) ∧
    (treatment_coverage_source treatment_coverage_level treatment_efficacy_level
        age treatment_propensity efficacy_propensity = some .effectively_covered ↔
      ¬(age < COVERAGE_START_AGE) ∧ ¬(treatment_coverage_level ≤ treatment_propensity) ∧
        efficacy_propensity < treatment_efficacy_level) := by
  unfold treatment_coverage_source mask_effectively_covered mask_non_responsive
    mask_untreated mask_ineligible
  rcases lt_or_le age COVERAGE_START_AGE with h1 | h1
  · simp [h1]
  · have h1' : ¬ age < COVERAGE_START_AGE := not_lt.mpr h1
    rcases le_or_lt treatment_coverage_level treatment_propensity with h2 | h2
    · simp [h1', h2]
    · have h2' : ¬ treatment_coverage_level ≤ treatment_propensity := not_le.mpr h2
      rcases le_or_lt treatment_efficacy_level efficacy_propensity with h3 | h3
      · have h3' : ¬ efficacy_propensity < treatment_efficacy_level := not_lt.mpr h3
        simp [h1', h2', h3, h3']
      · have h3' : ¬ treatment_efficacy_level ≤ efficacy_propensity := not_le.mpr h3
        simp [h1', h2', h3, h3']

/-- C7 counterexample: in the SAM incidence solver, a stratum whose adjusted
cat2 exposure is 0 (here raw cat2 exposure 0 with adjustment 1/10, and
positive neighbouring exposures) makes the float evaluation produce NaN, and
the source applies no recovery to 0 there: the degenerate division result
propagates into the solver output. -/
theorem C7_counterexample :
    sam_incidence_probability_fp (.fin (1/10))
        (fun c => match c with | .cat2 => .fin 0 | _ => .fin (1/4))
        (.fin (1/100)) (.fin (1/100)) (fun _ => .fin (1/100))
      = PandasVal.nan ∧ PandasVal.nan ≠ PandasVal.fin 0 := by
  refine ⟨?_, by simp⟩
  norm_num [sam_incidence_probability_fp, pvAdd, pvMul, pvDiv, pvSub, pvNeg]

/-- C7 amended: the NaN/infinity recovery to 0 is applied in the
excess-mortality loader (whose output is always a finite value), but not in
the transition-rate solvers. -/
theorem C7_amended_loader_recovers (csmr prevalence : PandasVal) :
    ∃ q : ℚ, load_lri_excess_mortality_rate csmr prevalence = .fin q := by
  unfold load_lri_excess_mortality_rate
  cases pvDiv csmr prevalence with
  | nan => exact ⟨0, rfl⟩
  | pinf => exact ⟨0, rfl⟩
  | ninf => exact ⟨0, rfl⟩
  | fin q => exact ⟨q, rfl⟩

/-- C8 counterexample: on a table with the age bins `[1/4, 1/2)` (exposure
3/10) and `[1/2, 1)` (exposure 7/10), the source's birth-prevalence loader
returns the exposure of the bin that ENDS at the start age 0.5, not of the
bin that starts there as the claim states. -/
theorem C8_counterexample :
    load_child_wasting_birth_prevalence
        [(⟨true, 1/4, 1/2, 2022, 2023⟩, fun _ => 3/10),
          (⟨true, 1/2, 1, 2022, 2023⟩, fun _ => 7/10)] .cat1
      = [(⟨true, 2022, 2023⟩, 3/10)] ∧
    birth_prevalence_per_spec
        [(⟨true, 1/4, 1/2, 2022, 2023⟩, fun _ => 3/10),
          (⟨true, 1/2, 1, 2022, 2023⟩, fun _ => 7/10)] .cat1
      = [(⟨true, 2022, 2023⟩, 7/10)] ∧
    ((3 : ℚ)/10) ≠ 7/10 := by
  refine ⟨?_, ?_, by norm_num⟩
  · norm_num [load_child_wasting_birth_prevalence, birth_prevalence_per_spec,
      droplevel_age, START_AGE, List.filter]
  · norm_num [load_child_wasting_birth_prevalence, birth_prevalence_per_spec,
      droplevel_age, START_AGE, List.filter]

/-- C8 amended: the birth-prevalence callback returns exactly the category's
exposures of the rows whose age bin ENDS at the model's start age (0.5),
with the age levels dropped, and nothing from any other age bin. -/
theorem C8_amended_birth_prevalence (exposures : List (Stratum × (WastingCategory → ℚ)))
    (wasting_category : WastingCategory) (p : StratumNoAge × ℚ) :
    p ∈ load_child_wasting_birth_prevalence exposures wasting_category ↔
      ∃ r ∈ exposures, r.1.age_end = START_AGE ∧
        p = (droplevel_age r.1, r.2 wasting_category) := by
  simp only [load_child_wasting_birth_prevalence, List.mem_map, List.mem_filter,
    decide_eq_true_eq]
  constructor
  · rintro ⟨a, ⟨⟨r, hr, rfl⟩, hend⟩, rfl⟩
    exact ⟨r, hr, hend, rfl⟩
  · rintro ⟨r, hr, hend, rfl⟩
    exact ⟨(r.1, r.2 wasting_category), ⟨⟨r, hr, rfl⟩, hend⟩, rfl⟩

/-- C9: for fixed coverage in `[0, 1]`, the SAM treated-remission daily
probability t1 is monotone non-decreasing in the treatment efficacy, in
every stratum. -/
theorem C9_t1_monotone_in_efficacy (s : Stratum) (tx_coverage e1 e2 : ℝ)
    (hc0 : 0 ≤ tx_coverage) (hc1 : tx_coverage ≤ 1)
    (he0 : 0 ≤ e1) (h12 : e1 ≤ e2) (he2 : e2 ≤ 1) :
    get_daily_sam_treated_remission_probability s tx_coverage e1
      ≤ get_daily_sam_treated_remission_probability s tx_coverage e2 := by
  unfold get_daily_sam_treated_remission_probability reset_underage_transitions
  split
  · exact le_rfl
  · unfold sam_treated_remission_body convert_annual_rate_to_daily_probability
    have hT : 0 < sam_tx_recovery_time s := by
      unfold sam_tx_recovery_time
      split <;> norm_num [SAM_TX_RECOVERY_TIME_UNDER_6MO, SAM_TX_RECOVERY_TIME_OVER_6MO]
    have hY : (0 : ℝ) < YEAR_DURATION := by norm_num [YEAR_DURATION]
    have hrate : tx_coverage * e1 * YEAR_DURATION / sam_tx_recovery_time s
        ≤ tx_coverage * e2 * YEAR_DURATION / sam_tx_recovery_time s := by
      gcongr
    have hexp : Real.exp (-(tx_coverage * e2 * YEAR_DURATION / sam_tx_recovery_time s)
          / YEAR_DURATION)
        ≤ Real.exp (-(tx_coverage * e1 * YEAR_DURATION / sam_tx_recovery_time s)
          / YEAR_DURATION) := by
      apply Real.exp_le_exp.mpr
      gcongr
    linarith

/-- Witness for C9 at a concrete stratum, coverage 1/2 and efficacies
1/4 ≤ 1/2. -/
theorem C9_t1_monotone_in_efficacy_witness :
    get_daily_sam_treated_remission_probability ⟨true, 1/2, 1, 2022, 2023⟩ (1/2) (1/4)
      ≤ get_daily_sam_treated_remission_probability ⟨true, 1/2, 1, 2022, 2023⟩ (1/2) (1/2) :=
  C9_t1_monotone_in_efficacy ⟨true, 1/2, 1, 2022, 2023⟩ (1/2) (1/4) (1/2)
    (by norm_num) (by norm_num) (by norm_num) (by norm_num) (by norm_num)
